import Mathlib

/-!
Verification of the chart-registry component `src/components/CalcPlot.jsx` of the
Quantitative-Finance documentation repository.

The source file consists of
  * pure numeric helpers (`linspace`, `meshgrid`, `normCDF`, `boxMesh`),
  * a registry `CHARTS` mapping 13 string identifiers to zero-argument
    producers of plot descriptors (`{ data, layout }` objects),
  * a memoized Plotly CDN loader (`loadPlotly`) and the React component
    `PlotlyChart` that mounts/unmounts a descriptor into a container.

All of it is shallowly embedded below.  JavaScript numbers are modelled as real
numbers; JS arrays as Lean lists; JS objects of the fixed schemas used by the
source as Lean structures with optional fields.  Presentation-only attributes
(colour scales, opacity, marker/line styling, legend and hover settings) are
not modelled: no property under verification mentions them, and they are all
built-in constants with no data flow into the modelled fields.
-/

namespace CalcPlot

/-! ## Data model: traces, layouts, descriptors -/

/-- A coordinate bundle of a trace: the source uses either a flat array of
numbers, a flat array that may contain `null` separators (the gradient-arrow
segments), or a two-dimensional grid (parametric surfaces). -/
inductive Coord where
  | one : List ℝ → Coord
  | oneN : List (Option ℝ) → Coord
  | two : List (List ℝ) → Coord

/-- One visual series of a descriptor (`type`, coordinate data, optional
index arrays for meshes, optional scene assignment). -/
structure Trace where
  type : String
  mode : Option String := none
  x : Option Coord := none
  y : Option Coord := none
  z : Option Coord := none
  u : Option Coord := none
  v : Option Coord := none
  w : Option Coord := none
  i : Option (List ℕ) := none
  j : Option (List ℕ) := none
  k : Option (List ℕ) := none
  text : Option (List String) := none
  color : Option String := none
  scene : Option String := none
  name : Option String := none

/-- Font options (`{family: ...}` or `{size: ...}` in the source). -/
structure Font where
  family : Option String := none
  size : Option ℝ := none

/-- Fixed margins passed by the renderer adapter. -/
structure Margin where
  t : ℝ
  r : ℝ
  b : ℝ
  l : ℝ

/-- Per-axis options used by the source layouts. -/
structure AxisSpec where
  title : Option String := none
  range : Option (ℝ × ℝ) := none
  showticklabels : Option Bool := none
  scaleanchor : Option String := none

/-- Normalized sub-rectangle of the page occupied by one 3D scene. -/
structure SceneDomain where
  x : ℝ × ℝ
  y : ℝ × ℝ

/-- A positioned text label (`annotations` entries of the source layouts). -/
structure TextLabel where
  x : ℝ
  y : ℝ
  z : Option ℝ := none
  xref : Option String := none
  yref : Option String := none
  text : String
  showarrow : Bool
  font : Option Font := none

/-- Options of one 3D scene. -/
structure Scene where
  xaxis : Option AxisSpec := none
  yaxis : Option AxisSpec := none
  zaxis : Option AxisSpec := none
  domain : Option SceneDomain := none
  annotations : Option (List TextLabel) := none
  aspectmode : Option String := none

/-- Layout metadata of a descriptor, including the fields that only the
renderer adapter's merge (`fullLayout`) ever sets. -/
structure Layout where
  title : Option String := none
  scene : Option Scene := none
  scene2 : Option Scene := none
  scene3 : Option Scene := none
  xaxis : Option AxisSpec := none
  yaxis : Option AxisSpec := none
  height : Option ℝ := none
  annotations : Option (List TextLabel) := none
  paper_bgcolor : Option String := none
  plot_bgcolor : Option String := none
  font : Option Font := none
  margin : Option Margin := none

/-- The data+layout bundle produced by each chart factory. -/
structure Descriptor where
  data : List Trace
  layout : Layout

/-! ## Math helpers (lines 5-20 of the source) -/

noncomputable section

/-- `linspace(start, end, n)` — `end` is renamed `stop` (reserved word).
Source: `Array.from({length: n}, (_, i) => start + (end - start) * i / (n - 1))`. -/
def linspace (start stop : ℝ) (n : ℕ) : List ℝ :=
  (List.range n).map (fun (i : ℕ) => start + (stop - start) * (i : ℝ) / ((n : ℝ) - 1))

/-- `meshgrid(xArr, yArr)` (defined in the source; no chart calls it). -/
def meshgrid (xArr yArr : List ℝ) : List (List ℝ) × List (List ℝ) :=
  (yArr.map (fun _ => xArr), yArr.map (fun y => xArr.map (fun _ => y)))

/-- Standard normal CDF (Abramowitz & Stegun approximation), lines 15-20. -/
def normCDF (x : ℝ) : ℝ :=
  let t := 1 / (1 + 0.2316419 * |x|)
  let d := 0.3989422820 * Real.exp (-x * x / 2)
  let p := d * t * (0.3193815300 + t * (-0.3565637820 + t * (1.7814779370 +
    t * (-1.8212559780 + t * 1.3302744290))))
  if x > 0 then 1 - p else p

/-- Analysis helper (not in the source): the exponential-free factor of the
A&S approximation, so that for `x > 0` one has
`normCDF x = 1 - normA x * exp(-x²/2)`. -/
def normA (x : ℝ) : ℝ :=
  0.3989422820 * ((1 / (1 + 0.2316419 * x)) * (0.3193815300 +
    (1 / (1 + 0.2316419 * x)) * (-0.3565637820 + (1 / (1 + 0.2316419 * x)) * (1.7814779370 +
    (1 / (1 + 0.2316419 * x)) * (-1.8212559780 + (1 / (1 + 0.2316419 * x)) * 1.3302744290)))))

/-- `boxMesh` — the 8-vertex / 12-face rectangular prism used for Riemann bars. -/
def boxMesh (x0 x1 y0 y1 z0 z1 : ℝ) (color : String) : Trace :=
  { type := "mesh3d"
    x := some (.one [x0, x1, x1, x0, x0, x1, x1, x0])
    y := some (.one [y0, y0, y1, y1, y0, y0, y1, y1])
    z := some (.one [z0, z0, z0, z0, z1, z1, z1, z1])
    i := some [0, 0, 4, 4, 0, 0, 1, 1, 2, 2, 3, 3]
    j := some [1, 2, 5, 6, 1, 5, 2, 6, 3, 7, 0, 4]
    k := some [2, 3, 6, 7, 5, 4, 6, 5, 7, 6, 4, 7]
    color := some color }

end

/-- The 8-colour viridis palette. -/
def VIRIDIS8 : List String :=
  ["#440154", "#3b528b", "#21918c", "#5ec962", "#fde725", "#31688e", "#35b779", "#90d743"]

/-! ## The 13 chart factories (`CHARTS`, lines 43-461 of the source).
Each is a zero-argument producer, modelled as a function out of `Unit`
mirroring the JS arrow `() => ({...})`. -/

noncomputable section

/-- Chart 1, `riemann-sum`. -/
def riemannSum : Unit → Descriptor := fun _ =>
  let n : ℕ := 8
  let xFine := linspace 0 Real.pi 300
  let yFine := xFine.map (fun xi => Real.sin xi + 1.5)
  let dx := Real.pi / (n : ℝ)
  let bars := (List.range n).map (fun (i : ℕ) =>
    let xi := ((i : ℝ) + 0.5) * dx
    let hi := Real.sin xi + 1.5
    boxMesh ((i : ℝ) * dx) (((i : ℝ) + 0.92) * dx) 0 0.3 0 hi (VIRIDIS8.getD i ""))
  { data := bars ++
      [{ type := "scatter3d", mode := some "lines"
         x := some (.one xFine)
         y := some (.one (List.replicate 300 0))
         z := some (.one yFine)
         name := some "f(x) = sin(x) + 1.5" }]
    layout :=
      { title := some "Riemann Sum (n=8 rectangles)<br>Area ≈ Σ f(xᵢ*)·Δx  →  ∫f(x)dx  as n→∞"
        scene := some
          { xaxis := some { title := some "X" }
            yaxis := some { title := some "Depth", showticklabels := some false }
            zaxis := some { title := some "f(x)" } } } }

/-- Chart 2, `surface-revolution`. -/
def surfaceRevolution : Unit → Descriptor := fun _ =>
  let nX : ℕ := 80
  let nT : ℕ := 80
  let xVals := linspace 0 Real.pi nX
  let rVals := xVals.map (fun xi => Real.sin xi + 1.5)
  let theta := linspace 0 (2 * Real.pi) nT
  -- Parametric surface: X=x, Y=r·cos θ, Z=r·sin θ  (shape: nT × nX)
  let Xs := theta.map (fun _ => xVals)
  let Ys := theta.map (fun t => rVals.map (fun r => r * Real.cos t))
  let Zs := theta.map (fun t => rVals.map (fun r => r * Real.sin t))
  { data :=
      [{ type := "surface"
         x := some (.two Xs), y := some (.two Ys), z := some (.two Zs)
         name := some "Surface of Revolution" },
       { type := "scatter3d", mode := some "lines"
         x := some (.one xVals), y := some (.one rVals)
         z := some (.one (List.replicate nX 0))
         name := some "y = sin(x) + 1.5" }]
    layout :=
      { title := some "Surface of Revolution<br>S = 2π ∫ f(x) √(1+[f\x27(x)]²) dx"
        scene := some
          { xaxis := some { title := some "X" }
            yaxis := some { title := some "Y" }
            zaxis := some { title := some "Z" } } } }

/-- Chart 3, `3d-coordinates`.  The source binds `P = [3, 4, 5]` and indexes it. -/
def coords3d : Unit → Descriptor := fun _ =>
  let P0 : ℝ := 3
  let P1 : ℝ := 4
  let P2 : ℝ := 5
  { data :=
      [{ type := "scatter3d", mode := some "markers+text"
         x := some (.one [P0]), y := some (.one [P1]), z := some (.one [P2])
         text := some ["P(3, 4, 5)"]
         name := some "P(3, 4, 5)" },
       { type := "scatter3d", mode := some "lines"
         x := some (.one [P0, P0]), y := some (.one [P1, P1]), z := some (.one [0, P2]) },
       { type := "scatter3d", mode := some "lines"
         x := some (.one [P0, P0]), y := some (.one [0, P1]), z := some (.one [0, 0]) },
       { type := "scatter3d", mode := some "lines"
         x := some (.one [0, P0]), y := some (.one [P1, P1]), z := some (.one [0, 0]) },
       { type := "scatter3d", mode := some "markers"
         x := some (.one [P0]), y := some (.one [P1]), z := some (.one [0]) }]
    layout :=
      { title := some "3D Coordinate System<br>d = √(Δx² + Δy² + Δz²)"
        scene := some
          { xaxis := some { title := some "X", range := some (0, 5) }
            yaxis := some { title := some "Y", range := some (0, 5) }
            zaxis := some { title := some "Z", range := some (0, 6) } } } }

/-- Chart 4, `helix-tangent`. -/
def helixTangent : Unit → Descriptor := fun _ =>
  let n : ℕ := 500
  let t := linspace 0 (4 * Real.pi) n
  let x := t.map Real.cos
  let y := t.map Real.sin
  let z := t
  let t0 := Real.pi / 4
  let p0x := Real.cos t0
  let p0y := Real.sin t0
  let p0z := t0
  let dpx := -Real.sin t0 * 0.7
  let dpy := Real.cos t0 * 0.7
  let dpz : ℝ := 0.7
  { data :=
      [{ type := "scatter3d", mode := some "lines"
         x := some (.one x), y := some (.one y), z := some (.one z)
         name := some "r(t) = ⟨cos t, sin t, t⟩" },
       { type := "cone"
         x := some (.one [p0x]), y := some (.one [p0y]), z := some (.one [p0z])
         u := some (.one [dpx]), v := some (.one [dpy]), w := some (.one [dpz])
         name := some "r\x27(t) tangent" },
       { type := "scatter3d", mode := some "markers"
         x := some (.one [p0x]), y := some (.one [p0y]), z := some (.one [p0z]) },
       { type := "scatter3d", mode := some "lines"
         x := some (.one (t.map Real.cos)), y := some (.one (t.map Real.sin))
         z := some (.one (List.replicate n 0))
         name := some "projection" }]
    layout :=
      { title := some "Helix r(t) = ⟨cos t, sin t, t⟩<br>with tangent vector r\x27(t) = ⟨−sin t, cos t, 1⟩"
        scene := some
          { xaxis := some { title := some "X" }
            yaxis := some { title := some "Y" }
            zaxis := some { title := some "Z" } } } }

/-- Chart 5, `multivariable-surface`. -/
def multivariableSurface : Unit → Descriptor := fun _ =>
  let n : ℕ := 80
  let xArr := linspace (-3) 3 n
  let yArr := linspace (-3) 3 n
  let Z := yArr.map (fun y => xArr.map (fun x =>
    Real.sin (Real.sqrt (x * x + y * y)) * Real.exp (-0.18 * (x * x + y * y))))
  { data :=
      [{ type := "surface"
         x := some (.one xArr), y := some (.one yArr), z := some (.two Z)
         name := some "z = f(x,y)" }]
    layout :=
      { title := some "Functions of Several Variables<br>z = sin(√(x²+y²)) · e^(−0.18(x²+y²))"
        scene := some
          { xaxis := some { title := some "X" }
            yaxis := some { title := some "Y" }
            zaxis := some { title := some "Z" } } } }

/-- Chart 6, `partial-derivatives`. -/
def partialDerivs : Unit → Descriptor := fun _ =>
  let n : ℕ := 60
  let xArr := linspace (-2) 2 n
  let yArr := linspace (-2) 2 n
  let Z := yArr.map (fun y => xArr.map (fun x => x * x + 0.5 * y * y))
  { data :=
      [{ type := "surface"
         x := some (.one xArr), y := some (.one yArr), z := some (.two Z)
         name := some "f(x,y) = x² + 0.5y²" },
       { type := "scatter3d", mode := some "lines"
         x := some (.one xArr), y := some (.one (List.replicate n 0))
         z := some (.one (xArr.map (fun x => x * x)))
         name := some "∂f/∂x slice (y=0)" },
       { type := "scatter3d", mode := some "lines"
         x := some (.one (List.replicate n 0)), y := some (.one xArr)
         z := some (.one (xArr.map (fun y => 0.5 * y * y)))
         name := some "∂f/∂y slice (x=0)" }]
    layout :=
      { title := some "f(x,y) = x² + 0.5y²<br>Partial-Derivative Cross-Sections (red=∂f/∂x, blue=∂f/∂y)"
        scene := some
          { xaxis := some { title := some "X" }
            yaxis := some { title := some "Y" }
            zaxis := some { title := some "Z" } } } }

/-- Chart 7, `tangent-plane`. -/
def tangentPlane : Unit → Descriptor := fun _ =>
  let n : ℕ := 50
  let xArr := linspace (-2) 2 n
  let yArr := linspace (-2) 2 n
  let Z := yArr.map (fun y => xArr.map (fun x => x * x + y * y))
  let a : ℝ := 1
  let b : ℝ := 1
  let fab : ℝ := 2
  let ZPlane := yArr.map (fun y => xArr.map (fun x => fab + 2 * (x - a) + 2 * (y - b)))
  { data :=
      [{ type := "surface"
         x := some (.one xArr), y := some (.one yArr), z := some (.two Z)
         name := some "Surface z = x² + y²" },
       { type := "surface"
         x := some (.one xArr), y := some (.one yArr), z := some (.two ZPlane)
         name := some "Tangent Plane at (1,1,2)" },
       { type := "scatter3d", mode := some "markers+text"
         x := some (.one [a]), y := some (.one [b]), z := some (.one [fab])
         text := some ["(a, b, f(a,b))"]
         name := some "Point of tangency" }]
    layout :=
      { title := some "Tangent Plane to z = x² + y² at (1, 1, 2)<br>z − f(a,b) = fₓ(a,b)(x−a) + fᵧ(a,b)(y−b)"
        scene := some
          { xaxis := some { title := some "X" }
            yaxis := some { title := some "Y" }
            zaxis := some { title := some "Z" } } } }

/-- Chart 8, `gradient-vectors`.  The source builds the arrow segments in a
double `for` loop (outer `j` over `gy`, inner `i` over `gx`), pushing
`cx, cx+nx, null` onto `lineX` (and similarly `lineY`), and one tip point onto
`tipX`/`tipY` per grid cell; that is the concatenation modelled with
`List.bind`.  The `tipAngle` array feeds only the marker styling. -/
def gradientVectors : Unit → Descriptor := fun _ =>
  let n : ℕ := 120
  let xArr := linspace (-3) 3 n
  let yArr := linspace (-3) 3 n
  let Z := yArr.map (fun y => xArr.map (fun x => x * x + 2 * y * y))
  let gn : ℕ := 10
  let gx := linspace (-2.5) 2.5 gn
  let gy := linspace (-2.5) 2.5 gn
  let scale : ℝ := 0.28
  let nxOf := fun (cx cy : ℝ) =>
    (2 * cx) / (Real.sqrt ((2 * cx) * (2 * cx) + (4 * cy) * (4 * cy)) + 1e-8) * scale
  let nyOf := fun (cx cy : ℝ) =>
    (4 * cy) / (Real.sqrt ((2 * cx) * (2 * cx) + (4 * cy) * (4 * cy)) + 1e-8) * scale
  let lineX := gy.flatMap (fun cy => gx.flatMap (fun cx => [some cx, some (cx + nxOf cx cy), none]))
  let lineY := gy.flatMap (fun cy => gx.flatMap (fun cx => [some cy, some (cy + nyOf cx cy), none]))
  let tipX := gy.flatMap (fun cy => gx.map (fun cx => cx + nxOf cx cy))
  let tipY := gy.flatMap (fun cy => gx.map (fun cx => cy + nyOf cx cy))
  { data :=
      [{ type := "contour"
         x := some (.one xArr), y := some (.one yArr), z := some (.two Z)
         name := some "f(x,y) = x² + 2y²" },
       { type := "scatter", mode := some "lines"
         x := some (.oneN lineX), y := some (.oneN lineY) },
       { type := "scatter", mode := some "markers"
         x := some (.one tipX), y := some (.one tipY) }]
    layout :=
      { title := some "∇f = ⟨2x, 4y⟩ — arrows point toward STEEPEST ASCENT (⊥ to level curves)"
        xaxis := some { title := some "X", scaleanchor := some "y" }
        yaxis := some { title := some "Y" }
        height := some 550 } }

/-- Chart 9, `critical-points`.  The local helper `dot(Z, scene, name)` of the
source ignores its `Z` argument and emits a red marker at the origin. -/
def criticalPoints : Unit → Descriptor := fun _ =>
  let n : ℕ := 50
  let xArr := linspace (-2) 2 n
  let yArr := linspace (-2) 2 n
  let saddle := yArr.map (fun y => xArr.map (fun x => x * x - y * y))
  let localMin := yArr.map (fun y => xArr.map (fun x => x * x + y * y))
  let localMax := yArr.map (fun y => xArr.map (fun x => -(x * x + y * y)))
  let dot := fun (_Z : List (List ℝ)) (scene name : String) =>
    ({ type := "scatter3d", mode := some "markers"
       x := some (.one [0]), y := some (.one [0]), z := some (.one [0])
       scene := some scene, name := some name } : Trace)
  { data :=
      [{ type := "surface"
         x := some (.one xArr), y := some (.one yArr), z := some (.two saddle)
         scene := some "scene", name := some "Saddle  z = x²−y²" },
       dot saddle "scene" "s",
       { type := "surface"
         x := some (.one xArr), y := some (.one yArr), z := some (.two localMin)
         scene := some "scene2", name := some "Min  z = x²+y²" },
       dot localMin "scene2" "m",
       { type := "surface"
         x := some (.one xArr), y := some (.one yArr), z := some (.two localMax)
         scene := some "scene3", name := some "Max  z = −x²−y²" },
       dot localMax "scene3" "x"]
    layout :=
      { title := some "Critical Points — Second Derivative Test  D = fₓₓ·fᵧᵧ − (fₓᵧ)²"
        scene := some
          { domain := some { x := (0.00, 0.30), y := (0, 1) }
            xaxis := some { title := some "" }
            yaxis := some { title := some "" }
            zaxis := some { title := some "" }
            annotations := some
              [{ x := 0, y := 0, z := some 0, text := "Saddle (D<0)", showarrow := false }] }
        scene2 := some
          { domain := some { x := (0.35, 0.65), y := (0, 1) }
            xaxis := some { title := some "" }
            yaxis := some { title := some "" }
            zaxis := some { title := some "" } }
        scene3 := some
          { domain := some { x := (0.70, 1.00), y := (0, 1) }
            xaxis := some { title := some "" }
            yaxis := some { title := some "" }
            zaxis := some { title := some "" } }
        height := some 500
        annotations := some
          [{ x := 0.15, y := 1.05, xref := some "paper", yref := some "paper"
             text := "Saddle Point (D<0)", showarrow := false, font := some { size := some 12 } },
           { x := 0.50, y := 1.05, xref := some "paper", yref := some "paper"
             text := "Local Minimum (D>0, fₓₓ>0)", showarrow := false, font := some { size := some 12 } },
           { x := 0.85, y := 1.05, xref := some "paper", yref := some "paper"
             text := "Local Maximum (D>0, fₓₓ<0)", showarrow := false, font := some { size := some 12 } }] } }

/-- Chart 10, `double-integral`. -/
def doubleIntegral : Unit → Descriptor := fun _ =>
  let n : ℕ := 50
  let xArr := linspace 0 2 n
  let yArr := linspace 0 2 n
  let Z := yArr.map (fun y => xArr.map (fun x => max 0 (4 - x * x - y * y)))
  { data :=
      [{ type := "surface"
         x := some (.one xArr), y := some (.one yArr), z := some (.two Z)
         name := some "f(x,y) = 4 − x² − y²" },
       { type := "surface"
         x := some (.one xArr), y := some (.one yArr)
         z := some (.two (yArr.map (fun _ => List.replicate n 0)))
         name := some "xy-plane base" }]
    layout :=
      { title := some "Double Integral ∬_R f(x,y) dA = Volume under surface<br>f(x,y) = 4 − x² − y²"
        scene := some
          { xaxis := some { title := some "X" }
            yaxis := some { title := some "Y" }
            zaxis := some { title := some "f(x,y)" } } } }

/-- Chart 11, `coordinate-systems`. -/
def coordinateSystems : Unit → Descriptor := fun _ =>
  let nT : ℕ := 80
  let theta := linspace 0 (2 * Real.pi) nT
  let nZ : ℕ := 30
  let zArr := linspace 0 3 nZ
  let rCyl : ℝ := 1.5
  -- Cylinder surface (nZ × nT)
  let cylX := zArr.map (fun _ => theta.map (fun t => rCyl * Real.cos t))
  let cylY := zArr.map (fun _ => theta.map (fun t => rCyl * Real.sin t))
  let cylZ := zArr.map (fun zi => List.replicate nT zi)
  let r0 : ℝ := 1.5
  let th0 := Real.pi / 3
  let z0 : ℝ := 2.0
  let px1 := r0 * Real.cos th0
  let py1 := r0 * Real.sin th0
  -- Sphere surface (nT × nT)
  let phi := linspace 0 Real.pi nT
  let rho : ℝ := 2.0
  let sphX := theta.map (fun t => phi.map (fun p => rho * Real.sin p * Real.cos t))
  let sphY := theta.map (fun t => phi.map (fun p => rho * Real.sin p * Real.sin t))
  let sphZ := theta.map (fun _ => phi.map (fun p => rho * Real.cos p))
  let rho0 : ℝ := 2.0
  let phi0 := Real.pi / 4
  let the0 := Real.pi / 3
  let px2 := rho0 * Real.sin phi0 * Real.cos the0
  let py2 := rho0 * Real.sin phi0 * Real.sin the0
  let pz2 := rho0 * Real.cos phi0
  { data :=
      [{ type := "surface"
         x := some (.two cylX), y := some (.two cylY), z := some (.two cylZ)
         scene := some "scene", name := some "Cylinder" },
       { type := "scatter3d", mode := some "markers"
         x := some (.one [px1]), y := some (.one [py1]), z := some (.one [z0])
         scene := some "scene", name := some "P(r=1.5, θ=π/3, z=2)" },
       { type := "scatter3d", mode := some "lines"
         x := some (.one [0, px1]), y := some (.one [0, py1]), z := some (.one [z0, z0])
         scene := some "scene", name := some "r" },
       { type := "scatter3d", mode := some "lines"
         x := some (.one [px1, px1]), y := some (.one [py1, py1]), z := some (.one [0, z0])
         scene := some "scene", name := some "z" },
       { type := "surface"
         x := some (.two sphX), y := some (.two sphY), z := some (.two sphZ)
         scene := some "scene2", name := some "Sphere ρ=2" },
       { type := "scatter3d", mode := some "markers"
         x := some (.one [px2]), y := some (.one [py2]), z := some (.one [pz2])
         scene := some "scene2", name := some "P(ρ=2, φ=π/4, θ=π/3)" },
       { type := "scatter3d", mode := some "lines"
         x := some (.one [0, px2]), y := some (.one [0, py2]), z := some (.one [0, pz2])
         scene := some "scene2", name := some "ρ" }]
    layout :=
      { title := some "3D Coordinate Systems"
        scene := some
          { domain := some { x := (0.00, 0.48), y := (0, 1) }
            xaxis := some { title := some "X" }
            yaxis := some { title := some "Y" }
            zaxis := some { title := some "Z" } }
        scene2 := some
          { domain := some { x := (0.52, 1.00), y := (0, 1) }
            xaxis := some { title := some "X" }
            yaxis := some { title := some "Y" }
            zaxis := some { title := some "Z" } }
        height := some 520
        annotations := some
          [{ x := 0.24, y := 1.04, xref := some "paper", yref := some "paper"
             text := "Cylindrical (r, θ, z)  dV = r dz dr dθ", showarrow := false
             font := some { size := some 13 } },
           { x := 0.76, y := 1.04, xref := some "paper", yref := some "paper"
             text := "Spherical (ρ, φ, θ)  dV = ρ² sin φ dρ dφ dθ", showarrow := false
             font := some { size := some 13 } }] } }

/-- Chart 12, `vector-field-3d`.  The triple `for (z) for (y) for (x)` loop
pushing onto six parallel arrays is modelled with nested `List.bind`. -/
def vectorField3d : Unit → Descriptor := fun _ =>
  let pts : List ℝ := [-2, -1, 0, 1, 2]
  let X := pts.flatMap (fun _z => pts.flatMap (fun _y => pts.map (fun x => x)))
  let Y := pts.flatMap (fun _z => pts.flatMap (fun y => pts.map (fun _x => y)))
  let Z := pts.flatMap (fun z => pts.flatMap (fun _y => pts.map (fun _x => z)))
  let U := pts.flatMap (fun _z => pts.flatMap (fun y => pts.map (fun _x => -y * 0.35)))
  let V := pts.flatMap (fun _z => pts.flatMap (fun _y => pts.map (fun x => x * 0.35)))
  let W := pts.flatMap (fun z => pts.flatMap (fun _y => pts.map (fun _x => z * 0.12)))
  { data :=
      [{ type := "cone"
         x := some (.one X), y := some (.one Y), z := some (.one Z)
         u := some (.one U), v := some (.one V), w := some (.one W)
         name := some "F = ⟨−y, x, z/3⟩" }]
    layout :=
      { title := some "3D Vector Field  F = ⟨−y, x, z/3⟩<br>curl F ≠ 0 (rotation about z-axis)"
        scene := some
          { xaxis := some { title := some "X" }
            yaxis := some { title := some "Y" }
            zaxis := some { title := some "Z" }
            aspectmode := some "cube" } } }

/-! Black-Scholes constants and pricing functions (local constants and local
arrow functions of the `black-scholes` producer, lines 424-439). -/

/-- Strike `K = 100`. -/
def bsK : ℝ := 100

/-- Risk-free rate `r = 0.05`. -/
def bsR : ℝ := 0.05

/-- Volatility `sigma = 0.20`. -/
def bsSigma : ℝ := 0.20

/-- `bsCall(s, t)` — Black-Scholes call price with time clamped to `1e-6`. -/
def bsCall (s t : ℝ) : ℝ :=
  let tt := max t 1e-6
  let d1 := (Real.log (s / bsK) + (bsR + 0.5 * bsSigma * bsSigma) * tt) / (bsSigma * Real.sqrt tt)
  let d2 := d1 - bsSigma * Real.sqrt tt
  s * normCDF d1 - bsK * Real.exp (-bsR * tt) * normCDF d2

/-- `delta(s, t)` — Black-Scholes call delta with time clamped to `1e-6`. -/
def delta (s t : ℝ) : ℝ :=
  let tt := max t 1e-6
  let d1 := (Real.log (s / bsK) + (bsR + 0.5 * bsSigma * bsSigma) * tt) / (bsSigma * Real.sqrt tt)
  normCDF d1

/-- Chart 13, `black-scholes`. -/
def blackScholes : Unit → Descriptor := fun _ =>
  let nS : ℕ := 60
  let nT : ℕ := 60
  let S := linspace 60 150 nS
  let T := linspace 0.02 2.0 nT
  let V := T.map (fun ti => S.map (fun si => bsCall si ti))
  let D := T.map (fun ti => S.map (fun si => delta si ti))
  { data :=
      [{ type := "surface"
         x := some (.one S), y := some (.one T), z := some (.two V)
         scene := some "scene", name := some "Call Price V" },
       { type := "surface"
         x := some (.one S), y := some (.one T), z := some (.two D)
         scene := some "scene2", name := some "Delta Δ" }]
    layout :=
      { title := some "Quant Finance — Option Greeks as Partial Derivatives"
        scene := some
          { domain := some { x := (0.00, 0.48), y := (0, 1) }
            xaxis := some { title := some "Stock Price S" }
            yaxis := some { title := some "Time T" }
            zaxis := some { title := some "V ($)" } }
        scene2 := some
          { domain := some { x := (0.52, 1.00), y := (0, 1) }
            xaxis := some { title := some "Stock Price S" }
            yaxis := some { title := some "Time T" }
            zaxis := some { title := some "Δ = ∂V/∂S" } }
        height := some 520
        annotations := some
          [{ x := 0.24, y := 1.04, xref := some "paper", yref := some "paper"
             text := "Call Price V(S,T)  —  slope ∂V/∂S = Delta", showarrow := false
             font := some { size := some 12 } },
           { x := 0.76, y := 1.04, xref := some "paper", yref := some "paper"
             text := "Delta Δ(S,T) = ∂V/∂S  —  curvature = Gamma", showarrow := false
             font := some { size := some 12 } }] } }

/-- The registry: chart identifier → zero-argument producer (lines 43-461). -/
def CHARTS : List (String × (Unit → Descriptor)) :=
  [("riemann-sum", riemannSum),
   ("surface-revolution", surfaceRevolution),
   ("3d-coordinates", coords3d),
   ("helix-tangent", helixTangent),
   ("multivariable-surface", multivariableSurface),
   ("partial-derivatives", partialDerivs),
   ("tangent-plane", tangentPlane),
   ("gradient-vectors", gradientVectors),
   ("critical-points", criticalPoints),
   ("double-integral", doubleIntegral),
   ("coordinate-systems", coordinateSystems),
   ("vector-field-3d", vectorField3d),
   ("black-scholes", blackScholes)]

end

/-! ## Registry lookup and the component's error path (lines 484-485) -/

/-- The 13 enumerated chart identifiers, in registry order. -/
def chartIds : List String :=
  ["riemann-sum", "surface-revolution", "3d-coordinates", "helix-tangent",
   "multivariable-surface", "partial-derivatives", "tangent-plane",
   "gradient-vectors", "critical-points", "double-integral",
   "coordinate-systems", "vector-field-3d", "black-scholes"]

/-- The own-key part of `CHARTS[chartName]`: the producer stored under the
key, if any.  (Full JS property access also walks the prototype chain; that is
`getProp` below.) -/
noncomputable def lookupChart (s : String) : Option (Unit → Descriptor) :=
  (CHARTS.find? (fun p => p.1 == s)).map Prod.snd

/-- The own property keys of `Object.prototype` (ECMAScript): `CHARTS` is a
plain object literal, so property access on it falls back to these when the
name is not one of the 13 registry keys.  Every one of them holds a truthy
value (a function, or `Object.prototype` itself for `__proto__`). -/
def objectProtoKeys : List String :=
  ["constructor", "hasOwnProperty", "isPrototypeOf", "propertyIsEnumerable",
   "toLocaleString", "toString", "valueOf", "__defineGetter__",
   "__defineSetter__", "__lookupGetter__", "__lookupSetter__", "__proto__"]

/-- JS property access `CHARTS[chartName]` including the prototype chain:
`none` models `undefined` (falsy); `some (Sum.inl f)` an own registry entry
(a chart producer); `some (Sum.inr s)` a truthy non-producer value inherited
from `Object.prototype` (for `"__proto__"` not even callable). -/
noncomputable def getProp (s : String) : Option ((Unit → Descriptor) ⊕ String) :=
  match lookupChart s with
  | some f => some (Sum.inl f)
  | none => if s ∈ objectProtoKeys then some (Sum.inr s) else none

/-- Outcome of rendering a chart name: the inline `Chart ... not found.`
error element, the normal chart path with the produced descriptor, or the
path taken for a truthy value inherited from `Object.prototype` — the
falsiness guard is skipped, no not-found element is rendered, and the effect
then fails (`def()` of the non-callable `__proto__` value throws a `TypeError`
escaping the component; the callable ones yield no descriptor, breaking
inside the load promise). -/
inductive RenderResult where
  | notFound : String → RenderResult
  | chart : Descriptor → RenderResult
  | inheritedPath : String → RenderResult

/-- `PlotlyChart`'s dispatch: `const def = CHARTS[chartName]; if (!def) return
<error div>;` else the effect path running `def()` — reaching the inherited
branch when the name hits an `Object.prototype` property. -/
noncomputable def renderChart (name : String) : RenderResult :=
  match getProp name with
  | none => RenderResult.notFound name
  | some (Sum.inl f) => RenderResult.chart (f ())
  | some (Sum.inr _) => RenderResult.inheritedPath name

/-! ## Renderer adapter: layout merge, mount and cleanup (lines 487-506) -/

/-- One invocation of the external engine. -/
inductive EngineCall where
  | newPlot : ℕ → List Trace → Layout → EngineCall
  | purge : ℕ → EngineCall

/-- JavaScript `h || dflt` on an optional number: `0` (and a missing value)
is falsy. -/
noncomputable def jsOr (h : Option ℝ) (dflt : ℝ) : ℝ :=
  match h with
  | some v => if v = 0 then dflt else v
  | none => dflt

/-- The host-side layout merge performed by `mount`:
`{...layout, paper_bgcolor, plot_bgcolor, font, margin, height: layout.height || 500}`. -/
noncomputable def fullLayout (l : Layout) : Layout :=
  { l with
    paper_bgcolor := some "transparent"
    plot_bgcolor := some "transparent"
    font := some { family := some "inherit" }
    margin := some { t := 80, r := 20, b := 50, l := 20 }
    height := some (jsOr l.height 500) }

/-- The body of the `loadPlotly().then(...)` callback: if the container handle
is already gone it returns without touching the engine, otherwise it issues the
single `newPlot` draw call.  `Except.error` would model an escaped exception;
this code has no failing path. -/
noncomputable def mountCallback (divRef : Option ℕ) (d : Descriptor) :
    Except String (List EngineCall) :=
  match divRef with
  | none => Except.ok []
  | some dv => Except.ok [EngineCall.newPlot dv d.data (fullLayout d.layout)]

/-- The `useEffect` cleanup: `if (divRef.current && window.Plotly)
window.Plotly.purge(divRef.current)`. -/
def cleanup (divRef : Option ℕ) (windowPlotly : Bool) : Except String (List EngineCall) :=
  match divRef with
  | none => Except.ok []
  | some dv => if windowPlotly then Except.ok [EngineCall.purge dv] else Except.ok []

/-! ## The memoized CDN loader (lines 464-477), as an event-trace model.

The mutable module state is `_plotlyPromise` (here: the id of the memoized
promise), `window.Plotly` (here: a flag, set by the script's `onload`), and
the observable effects: how many script elements were appended, and whether the
in-flight promise was rejected (`onerror`).  `freshId` numbers the promise
objects ever created, so "same promise" is id equality.  Events are a call to
`loadPlotly()`, the script's `onload`, and the script's `onerror`; the two
script events are guarded so they can only fire after a script was actually
appended and at most once overall. -/

structure LoaderState where
  plotlyPromise : Option ℕ
  windowPlotly : Bool
  failed : Bool
  scriptAppended : ℕ
  freshId : ℕ
deriving DecidableEq

/-- Page-process initial state: nothing loaded, nothing in flight. -/
def initLoader : LoaderState :=
  { plotlyPromise := none, windowPlotly := false, failed := false
    scriptAppended := 0, freshId := 0 }

/-- `loadPlotly()`: returns the memoized promise if present; else a fresh
`Promise.resolve(window.Plotly)` if the engine is already on the page; else
appends the CDN script and memoizes a fresh in-flight promise. -/
def loadPlotly (s : LoaderState) : ℕ × LoaderState :=
  match s.plotlyPromise with
  | some p => (p, s)
  | none =>
    if s.windowPlotly then
      (s.freshId, { s with freshId := s.freshId + 1 })
    else
      (s.freshId,
       { s with plotlyPromise := some s.freshId, freshId := s.freshId + 1
                scriptAppended := s.scriptAppended + 1 })

inductive LoaderEvent where
  | call
  | scriptLoad
  | scriptError
deriving DecidableEq

/-- One event of the page process.  `scriptLoad`/`scriptError` are the
`onload`/`onerror` handlers of the appended script: they can only fire when a
script was appended and neither has fired yet; otherwise they are no-ops. -/
def stepE (s : LoaderState) : LoaderEvent → LoaderState
  | LoaderEvent.call => (loadPlotly s).2
  | LoaderEvent.scriptLoad =>
    if 1 ≤ s.scriptAppended ∧ s.windowPlotly = false ∧ s.failed = false then
      { s with windowPlotly := true }
    else s
  | LoaderEvent.scriptError =>
    if 1 ≤ s.scriptAppended ∧ s.windowPlotly = false ∧ s.failed = false then
      { s with failed := true }
    else s

/-- Run a sequence of events. -/
def runL (s : LoaderState) (es : List LoaderEvent) : LoaderState :=
  es.foldl stepE s

/-- The promise ids returned to the callers of `loadPlotly()` along a trace. -/
def callOutputs : LoaderState → List LoaderEvent → List ℕ
  | _, [] => []
  | s, e :: es =>
    (match e with
     | LoaderEvent.call => [(loadPlotly s).1]
     | _ => []) ++ callOutputs (stepE s e) es

/-- The spec's load phases. -/
inductive EnginePhase where
  | unloaded
  | loading
  | ready
deriving DecidableEq

/-- Phase of a loader state: `Ready` once `window.Plotly` is present,
`Loading` while a load is memoized in flight, `Unloaded` before any load. -/
def phaseOf (s : LoaderState) : EnginePhase :=
  if s.windowPlotly then EnginePhase.ready
  else if s.plotlyPromise.isSome then EnginePhase.loading
  else EnginePhase.unloaded

/-- Forward order of phases. -/
def phaseRank : EnginePhase → ℕ
  | EnginePhase.unloaded => 0
  | EnginePhase.loading => 1
  | EnginePhase.ready => 2

/-! ## Rectangular-grid predicates for surface/contour traces -/

/-- Element count of a coordinate bundle (JS `arr.length`). -/
def coordCount : Option Coord → ℕ
  | some (Coord.one l) => l.length
  | some (Coord.oneN l) => l.length
  | some (Coord.two g) => g.length
  | none => 0

/-- Traces subject to the grid invariant. -/
def isGridTrace (t : Trace) : Prop :=
  t.type = "surface" ∨ t.type = "contour"

/-- The claim's literal invariant: for a surface/contour trace the z-grid has
exactly `t.y.length` rows and every row has exactly `t.x.length` elements. -/
def rectInvariant (t : Trace) : Prop :=
  isGridTrace t →
    ∃ g, t.z = some (Coord.two g) ∧ g.length = coordCount t.y ∧
      ∀ row ∈ g, row.length = coordCount t.x

/-- All traces of a descriptor satisfy the literal invariant. -/
def descRect (d : Descriptor) : Prop :=
  ∀ t ∈ d.data, rectInvariant t

/-- Row-length profile of a grid. -/
def gridShape (g : List (List ℝ)) : List ℕ :=
  g.map List.length

/-- Amended invariant: the z-grid is rectangular; when x and y are flat
coordinate sequences the original row/column counts hold, and when x and y are
two-dimensional parametric grids all three grids share one shape. -/
def rectAmended (t : Trace) : Prop :=
  isGridTrace t →
    ∃ g, t.z = some (Coord.two g) ∧ (∃ w, ∀ row ∈ g, row.length = w) ∧
      (match t.x, t.y with
       | some (Coord.one xs), some (Coord.one ys) =>
         g.length = ys.length ∧ ∀ row ∈ g, row.length = xs.length
       | some (Coord.two gx), some (Coord.two gy) =>
         gridShape gx = gridShape g ∧ gridShape gy = gridShape g
       | _, _ => False)

/-- All traces of a descriptor satisfy the amended invariant. -/
def descRectAmended (d : Descriptor) : Prop :=
  ∀ t ∈ d.data, rectAmended t

/-- Reachability invariant of the loader: before the first call nothing has
happened; after it, the memoized promise is promise #0, exactly one script was
appended, and the script cannot have both loaded and failed. -/
def LoaderInv (s : LoaderState) : Prop :=
  (s.plotlyPromise = none →
    s.windowPlotly = false ∧ s.failed = false ∧ s.scriptAppended = 0 ∧ s.freshId = 0) ∧
  (∀ p, s.plotlyPromise = some p → p = 0 ∧ s.scriptAppended = 1 ∧ s.freshId = 1) ∧
  ¬(s.windowPlotly = true ∧ s.failed = true)

/-! # Theorems -/

/-! ## Helper lemmas about `linspace` -/

theorem linspace_length (a b : ℝ) (n : ℕ) : (linspace a b n).length = n := by
  simp [linspace]

theorem linspace_get (a b : ℝ) (n : ℕ) (i : ℕ) (hi : i < (linspace a b n).length) :
    (linspace a b n).get ⟨i, hi⟩ = a + (b - a) * i / ((n : ℝ) - 1) := by
  simp [linspace]

/-! ## C4: linspace -/

/-- C4: for `count ≥ 2`, `linspace(start, end, count)` has exactly `count`
elements, its i-th element is `start + (end − start) · i / (count − 1)`, its
first element is `start` and its last element is `end` (hence for
`linspace(0, π, 300)` the last element is exactly π, within any tolerance). -/
theorem C4_linspace (a b : ℝ) (n : ℕ) (hn : 2 ≤ n) :
    (linspace a b n).length = n ∧
    (∀ i, ∀ hi : i < (linspace a b n).length,
      (linspace a b n).get ⟨i, hi⟩ = a + (b - a) * i / ((n : ℝ) - 1)) ∧
    (linspace a b n).head? = some a ∧
    (linspace a b n).getLast? = some b := by
  obtain ⟨m, rfl⟩ : ∃ m, n = m + 1 := ⟨n - 1, by omega⟩
  have hm : 1 ≤ m := by omega
  have hm0 : ((m : ℝ)) ≠ 0 := by
    have : (0 : ℝ) < m := by exact_mod_cast Nat.lt_of_lt_of_le Nat.zero_lt_one hm
    exact ne_of_gt this
  refine ⟨linspace_length a b _, fun i hi => linspace_get a b _ i hi, ?_, ?_⟩
  · rw [linspace, List.range_succ_eq_map]
    simp
  · rw [linspace, List.range_succ, List.map_append]
    simp only [List.map_cons, List.map_nil]
    rw [List.getLast?_concat]
    have hc : ((m + 1 : ℕ) : ℝ) - 1 = (m : ℝ) := by push_cast; ring
    rw [hc, mul_div_assoc, div_self hm0, mul_one]
    congr 1
    ring

/-- Witness for C4 at `linspace(0, π, 300)`. -/
theorem C4_linspace_witness :
    2 ≤ 300 ∧
    ((linspace 0 Real.pi 300).length = 300 ∧
     (∀ i, ∀ hi : i < (linspace 0 Real.pi 300).length,
       (linspace 0 Real.pi 300).get ⟨i, hi⟩ =
         0 + (Real.pi - 0) * i / (((300 : ℕ) : ℝ) - 1)) ∧
     (linspace 0 Real.pi 300).head? = some 0 ∧
     (linspace 0 Real.pi 300).getLast? = some Real.pi) :=
  ⟨by norm_num, C4_linspace 0 Real.pi 300 (by norm_num)⟩

/-! ## C10: symmetry of the normal-CDF approximation -/

/-- C10: for `x > 0`, `normCDF(x) + normCDF(−x) = 1` exactly: the positive
branch returns `1 − p` and the negative branch the same `p` (both branches
compute `p` from `|x|` and `x²`). -/
theorem C10_normCDF_symmetric (x : ℝ) (hx : 0 < x) : normCDF x + normCDF (-x) = 1 := by
  have hnx : ¬(-x > 0) := by linarith
  simp only [normCDF, abs_neg]
  rw [if_pos hx, if_neg hnx]
  have h2 : -(-x) * -x = -x * x := by ring
  rw [h2]
  ring

/-- Witness for C10 at `x = 1`. -/
theorem C10_normCDF_symmetric_witness : (0 : ℝ) < 1 ∧ normCDF 1 + normCDF (-1) = 1 :=
  ⟨by norm_num, C10_normCDF_symmetric 1 (by norm_num)⟩

/-! ## C3: registry lookup -/

theorem chartIds_eq : CHARTS.map Prod.fst = chartIds := rfl

theorem mem_chartIds_iff (s : String) : s ∈ chartIds ↔ ∃ p ∈ CHARTS, p.1 = s := by
  rw [← chartIds_eq, List.mem_map]

theorem lookupChart_eq_none_iff (s : String) : lookupChart s = none ↔ s ∉ chartIds := by
  rw [lookupChart, Option.map_eq_none', List.find?_eq_none, mem_chartIds_iff]
  constructor
  · rintro h ⟨p, hp, rfl⟩
    exact h p hp (by simp)
  · intro h p hp hbe
    exact h ⟨p, hp, by simpa using hbe⟩

theorem lookupChart_isSome (s : String) (h : s ∈ chartIds) :
    ∃ f, lookupChart s = some f := by
  have hfs : (CHARTS.find? (fun p => p.1 == s)).isSome := by
    rw [List.find?_isSome]
    obtain ⟨p, hp, hps⟩ := (mem_chartIds_iff s).1 h
    exact ⟨p, hp, by simp [hps]⟩
  obtain ⟨pr, hpr⟩ := Option.isSome_iff_exists.1 hfs
  exact ⟨pr.2, by rw [lookupChart, hpr]; rfl⟩

/-- C3 (counterexample): the claim "for every string not in the registry, the
component signals a chart-not-found condition" is false of the program:
`CHARTS` is a plain object literal, so `CHARTS["toString"]` yields the truthy
`Object.prototype.toString`, the `if (!def)` guard is skipped, and no
not-found element is rendered. -/
theorem C3_lookup_counterexample :
    "toString" ∉ chartIds ∧ getProp "toString" ≠ none ∧
    renderChart "toString" ≠ RenderResult.notFound "toString" := by
  have hlk : lookupChart "toString" = none :=
    (lookupChart_eq_none_iff "toString").2 (by decide)
  have hgp : getProp "toString" = some (Sum.inr "toString") := by
    simp only [getProp, hlk]
    rw [if_pos (by decide)]
  refine ⟨by decide, ?_, ?_⟩
  · rw [hgp]; simp
  · simp only [renderChart, hgp]
    simp

/-- C3 (amended): property access on the registry yields `undefined` exactly
when the identifier is neither one of the 13 enumerated keys nor a property
inherited from `Object.prototype`; for every such string the component renders
the inline "chart not found" element and invokes no producer; for each of the
13 keys the lookup returns the producer and the normal chart path runs; for
the inherited `Object.prototype` names the falsiness guard is skipped and the
component takes the broken inherited path instead of signalling not-found. -/
theorem C3_lookup_amended (s : String) :
    chartIds.length = 13 ∧
    (getProp s = none ↔ (s ∉ chartIds ∧ s ∉ objectProtoKeys)) ∧
    ((s ∉ chartIds ∧ s ∉ objectProtoKeys) →
      renderChart s = RenderResult.notFound s) ∧
    (s ∈ chartIds → ∃ f, lookupChart s = some f ∧
      renderChart s = RenderResult.chart (f ())) ∧
    ((s ∉ chartIds ∧ s ∈ objectProtoKeys) →
      renderChart s = RenderResult.inheritedPath s) := by
  refine ⟨rfl, ?_⟩
  by_cases hc : s ∈ chartIds
  · obtain ⟨f, hf⟩ := lookupChart_isSome s hc
    have hgp : getProp s = some (Sum.inl f) := by simp only [getProp, hf]
    refine ⟨?_, ?_, ?_, ?_⟩
    · rw [hgp]; simp [hc]
    · intro hn; exact absurd hc hn.1
    · intro _; exact ⟨f, hf, by simp only [renderChart, hgp]⟩
    · intro hn; exact absurd hc hn.1
  · have hf : lookupChart s = none := (lookupChart_eq_none_iff s).2 hc
    by_cases hpk : s ∈ objectProtoKeys
    · have hgp : getProp s = some (Sum.inr s) := by
        simp only [getProp, hf]
        rw [if_pos hpk]
      refine ⟨?_, ?_, ?_, ?_⟩
      · rw [hgp]; simp [hpk]
      · intro hn; exact absurd hpk hn.2
      · intro hmem; exact absurd hmem hc
      · intro _; simp only [renderChart, hgp]
    · have hgp : getProp s = none := by
        simp only [getProp, hf]
        rw [if_neg hpk]
      refine ⟨?_, ?_, ?_, ?_⟩
      · simp [hgp, hc, hpk]
      · intro _; simp only [renderChart, hgp]
      · intro hmem; exact absurd hmem hc
      · intro hn; exact absurd hn.2 hpk

/-- Witness for the amended C3 at the unknown identifier used by the spec's
test (not a registry key and not an `Object.prototype` property). -/
theorem C3_lookup_amended_witness :
    ("not-a-real-chart" ∉ chartIds ∧ "not-a-real-chart" ∉ objectProtoKeys) ∧
    renderChart "not-a-real-chart" = RenderResult.notFound "not-a-real-chart" :=
  ⟨⟨by decide, by decide⟩,
   (C3_lookup_amended "not-a-real-chart").2.2.1 ⟨by decide, by decide⟩⟩

/-! ## C2: determinism of the producers -/

/-- C2: each producer is a pure function of built-in constants; invoking the
producer registered under any of the 13 identifiers twice yields structurally
equal descriptors (definitionally, since the embedding of each producer is a
pure function — the source producers read no external state). -/
theorem C2_deterministic (id : String) (_hid : id ∈ chartIds)
    (f : Unit → Descriptor) (_hf : lookupChart id = some f) : f () = f () := rfl

/-- Witness for C2 at `riemann-sum`. -/
theorem C2_deterministic_witness :
    "riemann-sum" ∈ chartIds ∧ lookupChart "riemann-sum" = some riemannSum ∧
    riemannSum () = riemannSum () :=
  ⟨by decide, by rfl, C2_deterministic "riemann-sum" (by decide) riemannSum (by rfl)⟩

/-! ## C8: cleanup safety -/

/-- C8: the `useEffect` cleanup is a no-op (and throws nothing) when the
container handle is gone or the engine never loaded, and the deferred mount
callback is likewise a no-op when the container is already gone — so
unmounting before load completion cannot crash. -/
theorem C8_cleanup_safe (divRef : Option ℕ) (windowPlotly : Bool) (d : Descriptor)
    (h : divRef = none ∨ windowPlotly = false) :
    cleanup divRef windowPlotly = Except.ok [] ∧
    mountCallback none d = Except.ok [] := by
  refine ⟨?_, rfl⟩
  rcases h with rfl | rfl
  · rfl
  · cases divRef <;> simp [cleanup]

/-- Witness for C8: cleanup of a container that never mounted. -/
theorem C8_cleanup_safe_witness :
    ((none : Option ℕ) = none ∨ false = false) ∧
    (cleanup none false = Except.ok [] ∧
     mountCallback none (riemannSum ()) = Except.ok []) :=
  ⟨Or.inl rfl, C8_cleanup_safe none false (riemannSum ()) (Or.inl rfl)⟩

/-! ## C9: the mount-time layout merge -/

theorem fullLayout_getD (l : Layout)
    (h : l.height = none ∨ ∃ v, l.height = some v ∧ v ≠ 0) :
    fullLayout l =
      { l with
        paper_bgcolor := some "transparent"
        plot_bgcolor := some "transparent"
        font := some { family := some "inherit" }
        margin := some { t := 80, r := 20, b := 50, l := 20 }
        height := some (l.height.getD 500) } := by
  rcases h with h | ⟨v, hv, hv0⟩
  · simp [fullLayout, jsOr, h]
  · simp [fullLayout, jsOr, hv, hv0]

/-- C9: for every registered chart, mounting its descriptor performs exactly
one engine draw call, with the descriptor's data unchanged and a layout equal
to the descriptor's layout overridden only by the host defaults — transparent
backgrounds, inherited font, margins t=80 r=20 b=50 l=20, and height equal to
the layout's height when present (all present heights are nonzero) and 500
otherwise; every other layout field is passed through unchanged. -/
theorem C9_mount_merge (p : String × (Unit → Descriptor)) (hp : p ∈ CHARTS) (dv : ℕ) :
    mountCallback (some dv) (p.2 ()) =
      Except.ok [EngineCall.newPlot dv (p.2 ()).data (fullLayout (p.2 ()).layout)] ∧
    fullLayout (p.2 ()).layout =
      { (p.2 ()).layout with
        paper_bgcolor := some "transparent"
        plot_bgcolor := some "transparent"
        font := some { family := some "inherit" }
        margin := some { t := 80, r := 20, b := 50, l := 20 }
        height := some ((p.2 ()).layout.height.getD 500) } := by
  refine ⟨rfl, ?_⟩
  fin_cases hp
  · exact fullLayout_getD _ (Or.inl rfl)
  · exact fullLayout_getD _ (Or.inl rfl)
  · exact fullLayout_getD _ (Or.inl rfl)
  · exact fullLayout_getD _ (Or.inl rfl)
  · exact fullLayout_getD _ (Or.inl rfl)
  · exact fullLayout_getD _ (Or.inl rfl)
  · exact fullLayout_getD _ (Or.inl rfl)
  · exact fullLayout_getD _ (Or.inr ⟨550, rfl, by norm_num⟩)
  · exact fullLayout_getD _ (Or.inr ⟨500, rfl, by norm_num⟩)
  · exact fullLayout_getD _ (Or.inl rfl)
  · exact fullLayout_getD _ (Or.inr ⟨520, rfl, by norm_num⟩)
  · exact fullLayout_getD _ (Or.inl rfl)
  · exact fullLayout_getD _ (Or.inr ⟨520, rfl, by norm_num⟩)

/-- Witness for C9 at the `riemann-sum` entry and container #0. -/
theorem C9_mount_merge_witness :
    (("riemann-sum", riemannSum) : String × (Unit → Descriptor)) ∈ CHARTS ∧
    (mountCallback (some 0) (riemannSum ()) =
      Except.ok [EngineCall.newPlot 0 (riemannSum ()).data (fullLayout (riemannSum ()).layout)] ∧
     fullLayout (riemannSum ()).layout =
      { (riemannSum ()).layout with
        paper_bgcolor := some "transparent"
        plot_bgcolor := some "transparent"
        font := some { family := some "inherit" }
        margin := some { t := 80, r := 20, b := 50, l := 20 }
        height := some ((riemannSum ()).layout.height.getD 500) }) :=
  ⟨by simp [CHARTS], C9_mount_merge ("riemann-sum", riemannSum) (by simp [CHARTS]) 0⟩

/-! ## Loader lemmas: the reachability invariant -/

theorem inv_initLoader : LoaderInv initLoader := by
  refine ⟨fun _ => ⟨rfl, rfl, rfl, rfl⟩, fun p hp => ?_, by simp [initLoader]⟩
  simp [initLoader] at hp

theorem inv_stepE (s : LoaderState) (h : LoaderInv s) (e : LoaderEvent) :
    LoaderInv (stepE s e) := by
  obtain ⟨h1, h2, h3⟩ := h
  cases e with
  | call =>
    rcases hp : s.plotlyPromise with _ | p
    · obtain ⟨hw, hf, ha, hfr⟩ := h1 hp
      have hred : stepE s LoaderEvent.call =
          { s with plotlyPromise := some s.freshId, freshId := s.freshId + 1
                   scriptAppended := s.scriptAppended + 1 } := by
        simp [stepE, loadPlotly, hp, hw]
      rw [hred]
      refine ⟨fun hab => by simp at hab, fun q hq => ?_, by simp [hw, hf]⟩
      simp only [Option.some.injEq] at hq
      simp [← hq, hfr, ha]
    · simp only [stepE, loadPlotly, hp]
      exact ⟨h1, h2, h3⟩
  | scriptLoad =>
    by_cases hg : 1 ≤ s.scriptAppended ∧ s.windowPlotly = false ∧ s.failed = false
    · simp only [stepE, if_pos hg]
      refine ⟨fun hp => ?_, fun q hq => h2 q hq, by simp [hg.2.2]⟩
      · exact absurd hg.1 (by simp [(h1 hp).2.2.1])
    · simpa only [stepE, if_neg hg] using ⟨h1, h2, h3⟩
  | scriptError =>
    by_cases hg : 1 ≤ s.scriptAppended ∧ s.windowPlotly = false ∧ s.failed = false
    · simp only [stepE, if_pos hg]
      refine ⟨fun hp => ?_, fun q hq => h2 q hq, by simp [hg.2.1]⟩
      · exact absurd hg.1 (by simp [(h1 hp).2.2.1])
    · simpa only [stepE, if_neg hg] using ⟨h1, h2, h3⟩

theorem inv_runL (es : List LoaderEvent) (s : LoaderState) (h : LoaderInv s) :
    LoaderInv (runL s es) := by
  induction es generalizing s with
  | nil => exact h
  | cons e es ih => exact ih (stepE s e) (inv_stepE s h e)

theorem loadPlotly_fst_zero (s : LoaderState) (h : LoaderInv s) : (loadPlotly s).1 = 0 := by
  rcases hp : s.plotlyPromise with _ | p
  · obtain ⟨hw, _, _, hfr⟩ := h.1 hp
    simp [loadPlotly, hp, hw, hfr]
  · simp [loadPlotly, hp, (h.2.1 p hp).1]

theorem callOutputs_zero (es : List LoaderEvent) (s : LoaderState) (h : LoaderInv s) :
    ∀ r ∈ callOutputs s es, r = 0 := by
  induction es generalizing s with
  | nil => simp [callOutputs]
  | cons e es ih =>
    intro r hr
    simp only [callOutputs] at hr
    rcases List.mem_append.1 hr with h1 | h2
    · cases e with
      | call =>
        simp only [List.mem_singleton] at h1
        rw [h1]
        exact loadPlotly_fst_zero s h
      | scriptLoad => simp at h1
      | scriptError => simp at h1
    · exact ih (stepE s e) (inv_stepE s h e) r h2

/-! ## C6: at most one fetch, one shared promise -/

/-- C6: along every event trace of the page process (calls to `loadPlotly`,
script `onload`, script `onerror`), at most one script element is ever
appended, and every call — including all calls issued before the load
resolves — returns the one memoized promise (promise #0, created by the first
call). -/
theorem C6_single_load (es : List LoaderEvent) :
    (runL initLoader es).scriptAppended ≤ 1 ∧
    ∀ r ∈ callOutputs initLoader es, r = 0 := by
  have h := inv_runL es initLoader inv_initLoader
  constructor
  · rcases hp : (runL initLoader es).plotlyPromise with _ | p
    · simp [(h.1 hp).2.2.1]
    · simp [(h.2.1 p hp).2.1]
  · exact callOutputs_zero es initLoader inv_initLoader

/-! ## C7: the load state machine only moves forward -/

theorem stepE_mono_window (s : LoaderState) (e : LoaderEvent)
    (hw : s.windowPlotly = true) : (stepE s e).windowPlotly = true := by
  cases e with
  | call =>
    rcases hp : s.plotlyPromise with _ | p
    · simp only [stepE, loadPlotly, hp, hw]
      split <;> rfl
    · simp [stepE, loadPlotly, hp, hw]
  | scriptLoad =>
    simp only [stepE]
    split <;> simp [hw]
  | scriptError =>
    simp only [stepE]
    split <;> simp [hw]

theorem stepE_mono_promise (s : LoaderState) (e : LoaderEvent)
    (hp : s.plotlyPromise.isSome = true) : (stepE s e).plotlyPromise.isSome = true := by
  cases e with
  | call =>
    rcases hq : s.plotlyPromise with _ | p
    · simp [hq] at hp
    · simp [stepE, loadPlotly, hq]
  | scriptLoad =>
    simp only [stepE]
    split <;> simp [hp]
  | scriptError =>
    simp only [stepE]
    split <;> simpa using hp

theorem phase_mono_stepE (s : LoaderState) (e : LoaderEvent) :
    phaseRank (phaseOf s) ≤ phaseRank (phaseOf (stepE s e)) := by
  by_cases hw : s.windowPlotly = true
  · rw [phaseOf, phaseOf, if_pos hw, if_pos (stepE_mono_window s e hw)]
  · by_cases hp : s.plotlyPromise.isSome = true
    · have hp' := stepE_mono_promise s e hp
      rw [phaseOf, phaseOf, if_neg hw, if_pos hp]
      by_cases hw' : (stepE s e).windowPlotly = true
      · rw [if_pos hw']
        simp [phaseRank]
      · rw [if_neg hw', if_pos hp']
    · rw [phaseOf, if_neg hw, if_neg hp]
      exact Nat.zero_le _

theorem phase_mono_runL (es : List LoaderEvent) (s : LoaderState) :
    phaseRank (phaseOf s) ≤ phaseRank (phaseOf (runL s es)) := by
  induction es generalizing s with
  | nil => exact le_refl _
  | cons e es ih => exact le_trans (phase_mono_stepE s e) (ih (stepE s e))

theorem stepE_after_fail (s : LoaderState) (h : LoaderInv s) (hf : s.failed = true)
    (e : LoaderEvent) : stepE s e = s := by
  obtain ⟨p, hp⟩ : ∃ p, s.plotlyPromise = some p := by
    rcases hq : s.plotlyPromise with _ | p
    · exact absurd hf (by simp [(h.1 hq).2.1])
    · exact ⟨p, rfl⟩
  cases e with
  | call => simp [stepE, loadPlotly, hp]
  | scriptLoad => simp [stepE, hf]
  | scriptError => simp [stepE, hf]

theorem runL_after_fail (es : List LoaderEvent) (s : LoaderState) (h : LoaderInv s)
    (hf : s.failed = true) : runL s es = s := by
  induction es with
  | nil => rfl
  | cons e es ih =>
    have hs : stepE s e = s := stepE_after_fail s h hf e
    calc runL s (e :: es) = runL (stepE s e) es := rfl
    _ = runL s es := by rw [hs]
    _ = s := ih

/-- C7: the engine-load state machine only moves forward: along any trace and
any extension of it, the phase rank (Unloaded < Loading < Ready) never
decreases (so `Ready` is reached at most once and never left); and if the load
failed, the component stays in the Loading phase forever and no further script
is ever appended (no automatic retry). -/
theorem C7_forward_only (es es' : List LoaderEvent) :
    phaseRank (phaseOf (runL initLoader es)) ≤
      phaseRank (phaseOf (runL initLoader (es ++ es'))) ∧
    ((runL initLoader es).failed = true →
      phaseOf (runL initLoader (es ++ es')) = EnginePhase.loading ∧
      (runL initLoader (es ++ es')).scriptAppended =
        (runL initLoader es).scriptAppended) := by
  have hsplit : runL initLoader (es ++ es') = runL (runL initLoader es) es' := by
    simp [runL, List.foldl_append]
  have hinv := inv_runL es initLoader inv_initLoader
  constructor
  · rw [hsplit]
    exact phase_mono_runL es' (runL initLoader es)
  · intro hf
    rw [hsplit, runL_after_fail es' (runL initLoader es) hinv hf]
    refine ⟨?_, rfl⟩
    have hw : (runL initLoader es).windowPlotly = false := by
      rcases hb : (runL initLoader es).windowPlotly with _ | _
      · rfl
      · exact absurd ⟨hb, hf⟩ hinv.2.2
    obtain ⟨p, hp⟩ : ∃ p, (runL initLoader es).plotlyPromise = some p := by
      rcases hq : (runL initLoader es).plotlyPromise with _ | p
      · exact absurd hf (by simp [(hinv.1 hq).2.1])
      · exact ⟨p, rfl⟩
    simp [phaseOf, hw, hp]

/-- Witness for C7: the trace call-then-error followed by a further call stays
in the Loading phase with no second script append. -/
theorem C7_forward_only_witness :
    (runL initLoader [LoaderEvent.call, LoaderEvent.scriptError]).failed = true ∧
    (phaseOf (runL initLoader ([LoaderEvent.call, LoaderEvent.scriptError] ++
        [LoaderEvent.call])) = EnginePhase.loading ∧
     (runL initLoader ([LoaderEvent.call, LoaderEvent.scriptError] ++
        [LoaderEvent.call])).scriptAppended =
       (runL initLoader [LoaderEvent.call, LoaderEvent.scriptError]).scriptAppended) :=
  ⟨by decide,
   (C7_forward_only [LoaderEvent.call, LoaderEvent.scriptError] [LoaderEvent.call]).2
     (by decide)⟩

/-! ## C1: the rectangular-grid invariant -/

theorem rows_width {α : Type} (ys : List α) (F : α → List ℝ) (w : ℕ)
    (hw : ∀ y, (F y).length = w) : ∀ row ∈ ys.map F, row.length = w := by
  intro row hr
  obtain ⟨y, _, rfl⟩ := List.mem_map.1 hr
  exact hw y

theorem gridShape_map {α : Type} (ys : List α) (F G : α → List ℝ)
    (h : ∀ y, (F y).length = (G y).length) :
    gridShape (ys.map F) = gridShape (ys.map G) := by
  simp only [gridShape, List.map_map]
  exact List.map_congr_left (fun y _ => h y)

theorem rectAmended_not_grid (t : Trace) (h1 : t.type ≠ "surface")
    (h2 : t.type ≠ "contour") : rectAmended t := by
  intro hg
  rcases hg with h | h
  · exact absurd h h1
  · exact absurd h h2

theorem rectAmended_mk1 (t : Trace) (xs ys : List ℝ) (g : List (List ℝ))
    (hx : t.x = some (Coord.one xs)) (hy : t.y = some (Coord.one ys))
    (hz : t.z = some (Coord.two g)) (hlen : g.length = ys.length)
    (hrow : ∀ row ∈ g, row.length = xs.length) : rectAmended t := by
  intro _
  refine ⟨g, hz, ⟨xs.length, hrow⟩, ?_⟩
  rw [hx, hy]
  exact ⟨hlen, hrow⟩

theorem rectAmended_mk2 (t : Trace) (gx gy g : List (List ℝ))
    (hx : t.x = some (Coord.two gx)) (hy : t.y = some (Coord.two gy))
    (hz : t.z = some (Coord.two g)) (h1 : gridShape gx = gridShape g)
    (h2 : gridShape gy = gridShape g) (hw : ∃ w, ∀ row ∈ g, row.length = w) :
    rectAmended t := by
  intro _
  refine ⟨g, hz, hw, ?_⟩
  rw [hx, hy]
  exact ⟨h1, h2⟩

theorem gridOK_riemannSum : descRectAmended (riemannSum ()) := by
  intro t ht
  simp only [riemannSum, List.mem_append, List.mem_singleton, List.mem_map] at ht
  rcases ht with ⟨i, _, rfl⟩ | rfl
  · exact rectAmended_not_grid _ (by simp [boxMesh]) (by simp [boxMesh])
  · exact rectAmended_not_grid _ (by simp) (by simp)

theorem gridOK_surfaceRevolution : descRectAmended (surfaceRevolution ()) := by
  intro t ht
  simp only [surfaceRevolution, List.mem_cons, List.not_mem_nil, or_false] at ht
  rcases ht with rfl | rfl
  · refine rectAmended_mk2 _ _ _ _ rfl rfl rfl ?_ ?_ ?_
    · exact gridShape_map _ _ _ (fun th => by simp)
    · exact gridShape_map _ _ _ (fun th => by simp)
    · exact ⟨(linspace 0 Real.pi 80).length, rows_width _ _ _ (fun th => by simp)⟩
  · exact rectAmended_not_grid _ (by simp) (by simp)

theorem gridOK_coords3d : descRectAmended (coords3d ()) := by
  intro t ht
  simp only [coords3d, List.mem_cons, List.not_mem_nil, or_false] at ht
  rcases ht with rfl | rfl | rfl | rfl | rfl <;>
    exact rectAmended_not_grid _ (by simp) (by simp)

theorem gridOK_helixTangent : descRectAmended (helixTangent ()) := by
  intro t ht
  simp only [helixTangent, List.mem_cons, List.not_mem_nil, or_false] at ht
  rcases ht with rfl | rfl | rfl | rfl <;>
    exact rectAmended_not_grid _ (by simp) (by simp)

theorem gridOK_multivariableSurface : descRectAmended (multivariableSurface ()) := by
  intro t ht
  simp only [multivariableSurface, List.mem_singleton] at ht
  subst ht
  exact rectAmended_mk1 _ _ _ _ rfl rfl rfl (by simp)
    (rows_width _ _ _ (fun y => by simp))

theorem gridOK_partialDerivs : descRectAmended (partialDerivs ()) := by
  intro t ht
  simp only [partialDerivs, List.mem_cons, List.not_mem_nil, or_false] at ht
  rcases ht with rfl | rfl | rfl
  · exact rectAmended_mk1 _ _ _ _ rfl rfl rfl (by simp)
      (rows_width _ _ _ (fun y => by simp))
  · exact rectAmended_not_grid _ (by simp) (by simp)
  · exact rectAmended_not_grid _ (by simp) (by simp)

theorem gridOK_tangentPlane : descRectAmended (tangentPlane ()) := by
  intro t ht
  simp only [tangentPlane, List.mem_cons, List.not_mem_nil, or_false] at ht
  rcases ht with rfl | rfl | rfl
  · exact rectAmended_mk1 _ _ _ _ rfl rfl rfl (by simp)
      (rows_width _ _ _ (fun y => by simp))
  · exact rectAmended_mk1 _ _ _ _ rfl rfl rfl (by simp)
      (rows_width _ _ _ (fun y => by simp))
  · exact rectAmended_not_grid _ (by simp) (by simp)

theorem gridOK_gradientVectors : descRectAmended (gradientVectors ()) := by
  intro t ht
  simp only [gradientVectors, List.mem_cons, List.not_mem_nil, or_false] at ht
  rcases ht with rfl | rfl | rfl
  · exact rectAmended_mk1 _ _ _ _ rfl rfl rfl (by simp)
      (rows_width _ _ _ (fun y => by simp))
  · exact rectAmended_not_grid _ (by simp) (by simp)
  · exact rectAmended_not_grid _ (by simp) (by simp)

theorem gridOK_criticalPoints : descRectAmended (criticalPoints ()) := by
  intro t ht
  simp only [criticalPoints, List.mem_cons, List.not_mem_nil, or_false] at ht
  rcases ht with rfl | rfl | rfl | rfl | rfl | rfl
  · exact rectAmended_mk1 _ _ _ _ rfl rfl rfl (by simp)
      (rows_width _ _ _ (fun y => by simp))
  · exact rectAmended_not_grid _ (by simp) (by simp)
  · exact rectAmended_mk1 _ _ _ _ rfl rfl rfl (by simp)
      (rows_width _ _ _ (fun y => by simp))
  · exact rectAmended_not_grid _ (by simp) (by simp)
  · exact rectAmended_mk1 _ _ _ _ rfl rfl rfl (by simp)
      (rows_width _ _ _ (fun y => by simp))
  · exact rectAmended_not_grid _ (by simp) (by simp)

theorem gridOK_doubleIntegral : descRectAmended (doubleIntegral ()) := by
  intro t ht
  simp only [doubleIntegral, List.mem_cons, List.not_mem_nil, or_false] at ht
  rcases ht with rfl | rfl
  · exact rectAmended_mk1 _ _ _ _ rfl rfl rfl (by simp)
      (rows_width _ _ _ (fun y => by simp))
  · exact rectAmended_mk1 _ _ _ _ rfl rfl rfl (by simp)
      (rows_width _ _ _ (fun y => by simp [linspace]))

theorem gridOK_coordinateSystems : descRectAmended (coordinateSystems ()) := by
  intro t ht
  simp only [coordinateSystems, List.mem_cons, List.not_mem_nil, or_false] at ht
  rcases ht with rfl | rfl | rfl | rfl | rfl | rfl | rfl
  · refine rectAmended_mk2 _ _ _ _ rfl rfl rfl ?_ ?_ ?_
    · exact gridShape_map _ _ _ (fun z => by simp [linspace])
    · exact gridShape_map _ _ _ (fun z => by simp [linspace])
    · exact ⟨80, rows_width _ _ _ (fun z => by simp)⟩
  · exact rectAmended_not_grid _ (by simp) (by simp)
  · exact rectAmended_not_grid _ (by simp) (by simp)
  · exact rectAmended_not_grid _ (by simp) (by simp)
  · refine rectAmended_mk2 _ _ _ _ rfl rfl rfl ?_ ?_ ?_
    · exact gridShape_map _ _ _ (fun th => by simp)
    · exact gridShape_map _ _ _ (fun th => by simp)
    · exact ⟨(linspace 0 Real.pi 80).length, rows_width _ _ _ (fun th => by simp)⟩
  · exact rectAmended_not_grid _ (by simp) (by simp)
  · exact rectAmended_not_grid _ (by simp) (by simp)

theorem gridOK_vectorField3d : descRectAmended (vectorField3d ()) := by
  intro t ht
  simp only [vectorField3d, List.mem_singleton] at ht
  subst ht
  exact rectAmended_not_grid _ (by simp) (by simp)

theorem gridOK_blackScholes : descRectAmended (blackScholes ()) := by
  intro t ht
  simp only [blackScholes, List.mem_cons, List.not_mem_nil, or_false] at ht
  rcases ht with rfl | rfl
  · exact rectAmended_mk1 _ _ _ _ rfl rfl rfl (by simp)
      (rows_width _ _ _ (fun y => by simp))
  · exact rectAmended_mk1 _ _ _ _ rfl rfl rfl (by simp)
      (rows_width _ _ _ (fun y => by simp))

/-- C1 (counterexample): the claim's literal invariant — z-row width equals the
length of the trace's x array — fails for the cylinder surface trace of
`coordinate-systems`: its x array has 30 entries (one row per z-value) while
every z-row has 80 entries. -/
theorem C1_grid_counterexample :
    lookupChart "coordinate-systems" = some coordinateSystems ∧
    ¬descRect (coordinateSystems ()) := by
  refine ⟨rfl, ?_⟩
  intro h
  have h0 := h _ (List.mem_cons_self _ _)
  obtain ⟨g, hg, hlen, hrow⟩ := h0 (Or.inl rfl)
  have hsome := Option.some.inj hg
  injection hsome with hgeq
  subst hgeq
  have hne : linspace 0 3 30 ≠ [] := by
    intro hnil
    have := congrArg List.length hnil
    simp [linspace] at this
  have h02 := List.mem_map_of_mem (fun zi => List.replicate 80 zi)
    (List.head_mem hne)
  have h03 := hrow _ h02
  simp [coordCount, linspace] at h03

/-- C1 (amended): every surface/contour trace of every registered chart has a
rectangular z-grid; when its x and y coordinates are flat sequences the z-grid
has `y.length` rows of width `x.length` (the claim as stated), and when its x
and y are two-dimensional parametric grids (`surface-revolution` and
`coordinate-systems`) the x, y and z grids all share one shape instead. -/
theorem C1_grid_amended (id : String) (f : Unit → Descriptor)
    (hf : lookupChart id = some f) : descRectAmended (f ()) := by
  rw [lookupChart] at hf
  obtain ⟨pr, hfind, rfl⟩ : ∃ pr, CHARTS.find? (fun p => p.1 == id) = some pr ∧ pr.2 = f := by
    rcases hq : CHARTS.find? (fun p => p.1 == id) with _ | pr
    · rw [hq] at hf; simp at hf
    · rw [hq] at hf
      exact ⟨pr, hq, by simpa using hf⟩
  have hmem : pr ∈ CHARTS := List.mem_of_find?_eq_some hfind
  fin_cases hmem
  · exact gridOK_riemannSum
  · exact gridOK_surfaceRevolution
  · exact gridOK_coords3d
  · exact gridOK_helixTangent
  · exact gridOK_multivariableSurface
  · exact gridOK_partialDerivs
  · exact gridOK_tangentPlane
  · exact gridOK_gradientVectors
  · exact gridOK_criticalPoints
  · exact gridOK_doubleIntegral
  · exact gridOK_coordinateSystems
  · exact gridOK_vectorField3d
  · exact gridOK_blackScholes

/-- Witness for the amended C1 at `multivariable-surface`. -/
theorem C1_grid_amended_witness :
    lookupChart "multivariable-surface" = some multivariableSurface ∧
    descRectAmended (multivariableSurface ()) :=
  ⟨rfl, C1_grid_amended "multivariable-surface" multivariableSurface rfl⟩

/-! ## C5: at-the-money limit of the option pricer -/

theorem exp_neg_le_one (c : ℝ) (hc : 0 ≤ c) : Real.exp (-c) ≤ 1 := by
  rw [← Real.exp_zero]
  exact Real.exp_le_exp.mpr (by linarith)

theorem one_sub_le_exp_neg (c : ℝ) : 1 - c ≤ Real.exp (-c) := by
  have h := Real.add_one_le_exp (-c)
  linarith

theorem mul_interval (A E lo hi : ℝ) (hAl : lo ≤ A) (hAu : A ≤ hi)
    (hE1 : 1 - 7e-8 ≤ E) (hE2 : E ≤ 1) (hlo : 0 ≤ lo) :
    lo * (1 - 7e-8) ≤ A * E ∧ A * E ≤ hi := by
  have hA0 : 0 ≤ A := le_trans hlo hAl
  have h1 : lo * (1 - 7e-8) ≤ A * (1 - 7e-8) :=
    mul_le_mul_of_nonneg_right hAl (by norm_num)
  have h2 : A * (1 - 7e-8) ≤ A * E := mul_le_mul_of_nonneg_left hE1 hA0
  have h3 : A * E ≤ A * 1 := mul_le_mul_of_nonneg_left hE2 hA0
  exact ⟨le_trans h1 h2, le_trans h3 (by simpa using hAu)⟩

theorem normCDF_pos_eval (x : ℝ) (hx : 0 < x) :
    normCDF x = 1 - normA x * Real.exp (-x * x / 2) := by
  simp only [normCDF, normA, abs_of_pos hx, if_pos hx]
  ring

theorem normCDF_pos_bounds (x c lo hi : ℝ) (hx : 0 < x)
    (hc : -x * x / 2 = -c) (hc0 : 0 ≤ c) (hc7 : c ≤ 7e-8)
    (hAl : lo ≤ normA x) (hAu : normA x ≤ hi) (hlo : 0 ≤ lo) :
    1 - hi ≤ normCDF x ∧ normCDF x ≤ 1 - lo * (1 - 7e-8) := by
  rw [normCDF_pos_eval x hx]
  have hE2 : Real.exp (-x * x / 2) ≤ 1 := by
    rw [hc]; exact exp_neg_le_one c hc0
  have hE1 : 1 - 7e-8 ≤ Real.exp (-x * x / 2) := by
    rw [hc]
    calc (1 : ℝ) - 7e-8 ≤ 1 - c := by linarith
    _ ≤ _ := one_sub_le_exp_neg c
  obtain ⟨hl, hu⟩ := mul_interval (normA x) (Real.exp (-x * x / 2)) lo hi hAl hAu hE1 hE2 hlo
  exact ⟨by linarith, by linarith⟩

theorem normCDF_35_bounds :
    0.500139 ≤ normCDF 0.00035 ∧ normCDF 0.00035 ≤ 0.500140 := by
  obtain ⟨h1, h2⟩ := normCDF_pos_bounds 0.00035 6.125e-8 0.4998603 0.4998605
    (by norm_num) (by norm_num) (by norm_num) (by norm_num)
    (by rw [normA]; norm_num) (by rw [normA]; norm_num) (by norm_num)
  constructor <;> linarith

theorem normCDF_15_bounds :
    0.500059 ≤ normCDF 0.00015 ∧ normCDF 0.00015 ≤ 0.500060 := by
  obtain ⟨h1, h2⟩ := normCDF_pos_bounds 0.00015 1.125e-8 0.4999401 0.4999402
    (by norm_num) (by norm_num) (by norm_num) (by norm_num)
    (by rw [normA]; norm_num) (by rw [normA]; norm_num) (by norm_num)
  constructor <;> linarith

theorem sqrt_1em6 : Real.sqrt (1e-6 : ℝ) = 1e-3 := by
  rw [show (1e-6 : ℝ) = (1e-3 : ℝ) ^ 2 by norm_num]
  exact Real.sqrt_sq (by norm_num)

theorem delta_small_t (t : ℝ) (h : t ≤ 1e-6) : delta 100 t = normCDF 0.00035 := by
  have htt : max t 1e-6 = (1e-6 : ℝ) := max_eq_right h
  simp only [delta, bsK, bsR, bsSigma, htt, sqrt_1em6]
  rw [show (100 : ℝ) / 100 = 1 by norm_num, Real.log_one]
  norm_num

theorem bsCall_small_t (t : ℝ) (h : t ≤ 1e-6) :
    bsCall 100 t =
      100 * normCDF 0.00035 - 100 * Real.exp (-0.05 * 1e-6) * normCDF 0.00015 := by
  have htt : max t 1e-6 = (1e-6 : ℝ) := max_eq_right h
  simp only [bsCall, bsK, bsR, bsSigma, htt, sqrt_1em6]
  rw [show (100 : ℝ) / 100 = 1 by norm_num, Real.log_one]
  norm_num

/-- C5: with time-to-maturity clamped below by `1e-6`, at stock price = strike
= 100 and any time `t ≤ 1e-6` (in particular `t = 0`): the divisor `σ·√tt` of
`d1` is nonzero (no division by zero at `t = 0`), the delta value is within
`1e-3` of `0.5`, and the call price is within `1e-2` of `max(S − K, 0) = 0`. -/
theorem C5_atm_limit (t : ℝ) (h : t ≤ 1e-6) :
    0.2 * Real.sqrt (max t 1e-6) ≠ 0 ∧
    |delta 100 t - 0.5| ≤ 1e-3 ∧
    |bsCall 100 t - max (100 - 100) 0| ≤ 1e-2 := by
  have htt : max t 1e-6 = (1e-6 : ℝ) := max_eq_right h
  refine ⟨?_, ?_, ?_⟩
  · rw [htt, sqrt_1em6]
    norm_num
  · rw [delta_small_t t h]
    obtain ⟨h1, h2⟩ := normCDF_35_bounds
    rw [abs_le]
    constructor <;> linarith
  · rw [bsCall_small_t t h]
    obtain ⟨h1, h2⟩ := normCDF_35_bounds
    obtain ⟨h3, h4⟩ := normCDF_15_bounds
    have hered : -(0.05 : ℝ) * 1e-6 = -(5e-8) := by norm_num
    have he2 : Real.exp (-(0.05 : ℝ) * 1e-6) ≤ 1 := by
      rw [hered]; exact exp_neg_le_one _ (by norm_num)
    have he1 : 1 - 5e-8 ≤ Real.exp (-(0.05 : ℝ) * 1e-6) := by
      rw [hered]; exact one_sub_le_exp_neg _
    have hN2pos : (0 : ℝ) ≤ normCDF 0.00015 := by linarith
    have hprod_u : Real.exp (-(0.05 : ℝ) * 1e-6) * normCDF 0.00015 ≤ 1 * 0.500060 :=
      mul_le_mul he2 h4 hN2pos (by norm_num)
    have hprod_l : (1 - 5e-8) * 0.500059 ≤ Real.exp (-(0.05 : ℝ) * 1e-6) * normCDF 0.00015 :=
      mul_le_mul he1 h3 (by norm_num) (le_of_lt (Real.exp_pos _))
    rw [show max ((100 : ℝ) - 100) 0 = 0 by norm_num, sub_zero, abs_le, mul_assoc]
    constructor <;> nlinarith

/-- Witness for C5 at `t = 0`. -/
theorem C5_atm_limit_witness :
    (0 : ℝ) ≤ 1e-6 ∧
    (0.2 * Real.sqrt (max 0 1e-6) ≠ 0 ∧
     |delta 100 0 - 0.5| ≤ 1e-3 ∧
     |bsCall 100 0 - max (100 - 100) 0| ≤ 1e-2) :=
  ⟨by norm_num, C5_atm_limit 0 (by norm_num)⟩

end CalcPlot
